import Mathlib

/-!
# Verification of the UserAudit script (`src/UserAudit.js`)

Shallow embedding of the inactive-and-licensed user audit pipeline:
`getCutoffDate` (CutoffCalculator), `getInactiveUsers` (InactiveUserFetcher),
`hasLicense` / the filter on line 102 (LicenseFilter), `exportToSheet`
(ReportExporter), and the orchestrator `auditInactiveEnterpriseUsers`.

Modelling decisions:
* Timestamps are integers counting days since the Unix epoch (1970-01-01).
  JavaScript `Date.setDate` / `Date.getDate` operate at calendar-day
  granularity; `dayOfMonthFromEpochDay` computes the civil day of month
  from an epoch-day count (standard civil-from-days algorithm), so
  `setDate`/`getDate` mirror the JS semantics at day granularity.
* The wall clock is a sequence `clock : Nat → Int`: `clock n` is what the
  `n`-th call to `new Date()` during the computation would observe.  The
  source calls `new Date()` exactly once, so only `clock 0` is consumed.
* The `AdminDirectory.Users.list` collaborator is modelled by the sequence
  of responses the service produces on successive calls: each element is
  either a thrown exception (`Except.error` with the message) or a
  response `{users?, nextPageToken?}`.
* The `AdminLicenseManager.LicenseAssignments.get` collaborator is
  modelled by a function `probe productId skuId userId` whose outcome is
  `found` (the call returns), `notFound` (it throws a 404), or `error`
  (it throws any other exception).  The source's `try/catch` observes
  only "returned" vs "threw".
* Observable behaviour is a trace of `Effect`s (Logger.log lines and
  spreadsheet operations) plus an `Except` outcome: `Except.error msg`
  models an uncaught JS exception terminating the run.
-/

/-- A spreadsheet cell: the data rows mix strings and the boolean
`suspended` flag. -/
inductive Cell where
  | str (s : String)
  | bool (b : Bool)
deriving DecidableEq

/-- One observable action of the script: a `Logger.log` line,
`SpreadsheetApp.create`, `sheet.appendRow`, or `Range.setValues`. -/
inductive Effect where
  | log (msg : String)
  | createSpreadsheet (title : String)
  | appendRow (row : List Cell)
  | setValues (rows : List (List Cell))
deriving DecidableEq

/-- `true` exactly on the artifact-creation/write actions (anything other
than a log line). -/
def Effect.isArtifact : Effect → Bool
  | Effect.log _ => false
  | _ => true

/-- The `user.name` object of the Admin SDK user resource (the source
reads `user.name.fullName`). -/
structure UserName where
  fullName : String
deriving DecidableEq

/-- A directory user as consumed by the script: the fields read are
`name.fullName`, `primaryEmail`, `lastLoginTime`, `creationTime`,
`suspended`.  The timestamp fields are the API's RFC-3339 strings. -/
structure User where
  name : UserName
  primaryEmail : String
  lastLoginTime : String
  creationTime : String
  suspended : Bool
deriving DecidableEq

/-- One `AdminDirectory.Users.list` response: the `users` field may be
absent, and `nextPageToken` may be absent (ending the pagination loop). -/
structure ListResponse where
  users : Option (List User)
  nextPageToken : Option String
deriving DecidableEq

/-- Outcome of one `AdminLicenseManager.LicenseAssignments.get` call:
the call returns (assignment exists), throws a 404 (not assigned), or
throws any other exception (transport/auth failure). -/
inductive ProbeResult where
  | found
  | notFound (msg : String)
  | error (msg : String)
deriving DecidableEq

/-- Behaviour of the spreadsheet sink for one export:
`SpreadsheetApp.create` throws, or creation succeeds (yielding the URL
`getUrl` reports) but `setValues` throws, or everything succeeds. -/
inductive SinkOutcome where
  | createFails (msg : String)
  | writeFails (url : String) (msg : String)
  | ok (url : String)
deriving DecidableEq

/-- `CONFIG.TARGET_SKU_ID` from the source. -/
def CONFIG_TARGET_SKU_ID : String := "1010020020"

/-- `CONFIG.PRODUCT_ID` from the source. -/
def CONFIG_PRODUCT_ID : String := "Google-Apps"

/-- `CONFIG.INACTIVITY_DAYS` from the source. -/
def CONFIG_INACTIVITY_DAYS : Int := 365

/-- Civil day of month (1..31) of an epoch-day count, by the standard
civil-from-days algorithm; models what JS `Date.prototype.getDate`
returns for a timestamp on that day. -/
def dayOfMonthFromEpochDay (z0 : Int) : Int :=
  let z := z0 + 719468
  let doe := z.emod 146097
  let yoe := (doe - doe / 1460 + doe / 36524 - doe / 146096) / 365
  let doy := doe - (365 * yoe + yoe / 4 - yoe / 100)
  let mp := (5 * doy + 2) / 153
  doy - (153 * mp + 2) / 5 + 1

/-- JS `date.getDate()` on a timestamp held at day granularity. -/
def getDate (t : Int) : Int := dayOfMonthFromEpochDay t

/-- JS `date.setDate(newDay)`: keeps the current month's start and sets
the day-of-month to `newDay`, with out-of-range values normalized by
calendar arithmetic — at day granularity this is exactly
`t - dayOfMonth t + newDay`. -/
def setDate (t newDay : Int) : Int := t - dayOfMonthFromEpochDay t + newDay

/-- `getCutoffDate(daysAgo)` from the source: samples `new Date()` once
(the first and only clock observation, `clock 0`) and runs
`date.setDate(date.getDate() - daysAgo)`.  There is no validation of
`daysAgo` in the source. -/
def getCutoffDate (clock : Nat → Int) (daysAgo : Int) : Int :=
  let date := clock 0
  setDate date (getDate date - daysAgo)

/-- The `do { ... } while (pageToken)` loop body of `getInactiveUsers`:
consumes service responses in order; an `ok` response appends
`response.users` (when present) and continues exactly when
`nextPageToken` is present; a thrown exception logs
`'Error listing users: ' + e.message` and breaks, returning the users
accumulated so far. -/
def fetchLoop : List (Except String ListResponse) → List User → List User × List Effect
  | [], acc => (acc, [])
  | Except.error e :: _, acc => (acc, [Effect.log ("Error listing users: " ++ e)])
  | Except.ok r :: rest, acc =>
    let acc2 := match r.users with
      | some us => acc ++ us
      | none => acc
    match r.nextPageToken with
    | some _ => fetchLoop rest acc2
    | none => (acc2, [])

/-- `getInactiveUsers(cutoffDate)` from the source: starts with
`users = []` and runs the pagination loop.  The query string built from
`cutoffDate` is absorbed into the response-sequence model of the
directory service (the `formattedDate` local in the source is dead
code). -/
def getInactiveUsers (cutoffDate : Int) (pages : List (Except String ListResponse)) :
    List User × List Effect :=
  fetchLoop pages []

/-- `hasLicense(userId, productId, skuId)` from the source, together with
the effects it emits: it calls
`AdminLicenseManager.LicenseAssignments.get(productId, skuId, userId)`
inside `try/catch`; a successful call returns `true`, and the single
catch-all returns `false` for ANY thrown exception — a 404 and a
transport/auth error alike — with no `Logger.log` call in either arm. -/
def hasLicenseRun (probe : String → String → String → ProbeResult)
    (userId productId skuId : String) : Bool × List Effect :=
  match probe productId skuId userId with
  | ProbeResult.found => (true, [])
  | ProbeResult.notFound _ => (false, [])
  | ProbeResult.error _ => (false, [])

/-- The boolean result of `hasLicense` (what the filter on line 102
consumes). -/
def hasLicense (probe : String → String → String → ProbeResult)
    (userId productId skuId : String) : Bool :=
  (hasLicenseRun probe userId productId skuId).1

/-- Line 102 of the source:
`inactiveUsers.filter(user => hasLicense(user.primaryEmail, CONFIG.PRODUCT_ID, CONFIG.TARGET_SKU_ID))`. -/
def licenseFilter (probe : String → String → String → ProbeResult)
    (users : List User) : List User :=
  users.filter fun user =>
    hasLicense probe user.primaryEmail CONFIG_PRODUCT_ID CONFIG_TARGET_SKU_ID

/-- The license-filtering step with its emitted effects: the matched
list from line 102 paired with the concatenation of the effects of the
`hasLicense` call made for each candidate. -/
def licenseFilterRun (probe : String → String → String → ProbeResult)
    (users : List User) : List User × List Effect :=
  (licenseFilter probe users,
   (users.map fun user =>
     (hasLicenseRun probe user.primaryEmail CONFIG_PRODUCT_ID CONFIG_TARGET_SKU_ID).2).flatten)

/-- The header row appended by `exportToSheet` (line 206 of the source). -/
def headerRow : List Cell :=
  [Cell.str "Name", Cell.str "Email", Cell.str "Last Login Time",
   Cell.str "Creation Time", Cell.str "Suspended"]

/-- The data row built for one user (lines 209-215 of the source):
`[user.name.fullName, user.primaryEmail, user.lastLoginTime, user.creationTime, user.suspended]`. -/
def userRow (user : User) : List Cell :=
  [Cell.str user.name.fullName, Cell.str user.primaryEmail,
   Cell.str user.lastLoginTime, Cell.str user.creationTime,
   Cell.bool user.suspended]

/-- `exportToSheet(users)` from the source: creates the spreadsheet,
appends the header row, and when `rows.length > 0` writes all data rows
with one `setValues` call, then logs `'Report generated: ' + ss.getUrl()`.
No operation is wrapped in `try/catch`, so a sink failure propagates as
an uncaught exception (`Except.error`), keeping only the effects that
happened before the throw. -/
def exportToSheet (sink : SinkOutcome) (users : List User) :
    List Effect × Except String Unit :=
  match sink with
  | SinkOutcome.createFails msg => ([], Except.error msg)
  | SinkOutcome.writeFails url msg =>
    let rows := users.map userRow
    if rows.length > 0 then
      ([Effect.createSpreadsheet "Inactive Enterprise Plus Users Audit",
        Effect.appendRow headerRow], Except.error msg)
    else
      -- with no data rows the `setValues` call is skipped, so it cannot throw
      ([Effect.createSpreadsheet "Inactive Enterprise Plus Users Audit",
        Effect.appendRow headerRow,
        Effect.log ("Report generated: " ++ url)], Except.ok ())
  | SinkOutcome.ok url =>
    let rows := users.map userRow
    if rows.length > 0 then
      ([Effect.createSpreadsheet "Inactive Enterprise Plus Users Audit",
        Effect.appendRow headerRow,
        Effect.setValues rows,
        Effect.log ("Report generated: " ++ url)], Except.ok ())
    else
      ([Effect.createSpreadsheet "Inactive Enterprise Plus Users Audit",
        Effect.appendRow headerRow,
        Effect.log ("Report generated: " ++ url)], Except.ok ())

/-- The environment an audit run interacts with: the wall clock, the
directory service's successive responses, the license probe, and the
spreadsheet sink. -/
structure AuditEnv where
  clock : Nat → Int
  pages : List (Except String ListResponse)
  probe : String → String → String → ProbeResult
  sink : SinkOutcome

/-- The inactive-user list an audit run computes (step 1 of the main
function). -/
def inactiveUsersOf (env : AuditEnv) : List User :=
  (getInactiveUsers (getCutoffDate env.clock CONFIG_INACTIVITY_DAYS) env.pages).1

/-- The matched set an audit run computes (line 102 of the main
function). -/
def targetUsersOf (env : AuditEnv) : List User :=
  licenseFilter env.probe (inactiveUsersOf env)

/-- `auditInactiveEnterpriseUsers()` from the source: cutoff, fetch,
filter, then export when the matched set is non-empty or the
`'No matching users found.'` log otherwise.  The result is the effect
trace in program order together with the run's outcome
(`Except.error` = the run ends with an uncaught exception). -/
def auditInactiveEnterpriseUsers (env : AuditEnv) : List Effect × Except String Unit :=
  let inactiveDate := getCutoffDate env.clock CONFIG_INACTIVITY_DAYS
  let fetched := getInactiveUsers inactiveDate env.pages
  let inactiveUsers := fetched.1
  let targetUsers := licenseFilter env.probe inactiveUsers
  let pre := Effect.log ("Auditing users inactive since: " ++ toString inactiveDate) ::
    fetched.2 ++
    [Effect.log ("Found " ++ toString inactiveUsers.length ++ " inactive users."),
     Effect.log ("Found " ++ toString targetUsers.length ++
       " users with Target License and Inactive.")]
  if targetUsers.length > 0 then
    let ex := exportToSheet env.sink targetUsers
    (pre ++ ex.1, ex.2)
  else
    (pre ++ [Effect.log "No matching users found."], Except.ok ())

/-- Shape of a fully successful pagination run: every response before
the last carries a `nextPageToken`, and the last carries none. -/
def wellFormedPages : List ListResponse → Bool
  | [] => true
  | [r] => r.nextPageToken.isNone
  | r :: rest => r.nextPageToken.isSome && wellFormedPages rest

/-- A concrete user for witness runs. -/
def sampleUser : User :=
  { name := { fullName := "A" }, primaryEmail := "a@x.com",
    lastLoginTime := "2022-01-01", creationTime := "2020-01-01", suspended := false }

/-- A second concrete user for witness runs. -/
def sampleUser2 : User :=
  { name := { fullName := "B" }, primaryEmail := "b@x.com",
    lastLoginTime := "2021-06-15", creationTime := "2019-03-02", suspended := true }

/-- Concrete successful three-page run of sizes 500, 500, 37. -/
def pagesC3 : List ListResponse :=
  [{ users := some (List.replicate 500 sampleUser), nextPageToken := some "t1" },
   { users := some (List.replicate 500 sampleUser2), nextPageToken := some "t2" },
   { users := some (List.replicate 37 sampleUser), nextPageToken := none }]

/-- A user with the given full name and email (timestamps fixed), for
concrete runs. -/
def mkUser (nm email : String) : User :=
  { name := { fullName := nm }, primaryEmail := email,
    lastLoginTime := "2022-01-01", creationTime := "2020-01-01", suspended := false }

/-- Five concrete candidates. -/
def fiveUsers : List User :=
  [mkUser "U1" "u1@x.com", mkUser "U2" "u2@x.com", mkUser "U3" "u3@x.com",
   mkUser "U4" "u4@x.com", mkUser "U5" "u5@x.com"]

/-- Probe where candidate 4's entitlement check throws a transport
error, candidate 2 holds the license, and everyone else gets a 404. -/
def probeTransportErr : String → String → String → ProbeResult :=
  fun _ _ userId =>
    if userId = "u4@x.com" then ProbeResult.error "Transport error"
    else if userId = "u2@x.com" then ProbeResult.found
    else ProbeResult.notFound "Not Found"

/-- The same probe except candidate 4 gets a confirmed 404 instead of a
transport error. -/
def probeConfirmedAbsent : String → String → String → ProbeResult :=
  fun _ _ userId =>
    if userId = "u2@x.com" then ProbeResult.found
    else ProbeResult.notFound "Not Found"

/-- Concrete environment in which the single fetched candidate does not
hold the license, so the matched set is empty. -/
def envC7 : AuditEnv :=
  { clock := fun _ => 20000,
    pages := [Except.ok { users := some [sampleUser], nextPageToken := none }],
    probe := fun _ _ _ => ProbeResult.notFound "Not Found",
    sink := SinkOutcome.ok "https://sheets.example/abc" }

/-- Concrete environment in which the single fetched candidate holds
the license but `SpreadsheetApp.create` throws. -/
def envC9 : AuditEnv :=
  { clock := fun _ => 20000,
    pages := [Except.ok { users := some [sampleUser], nextPageToken := none }],
    probe := fun _ _ _ => ProbeResult.found,
    sink := SinkOutcome.createFails "Service invoked too many times" }

/-- Unfolding step: a successful response whose `nextPageToken` is
present appends its items (if any) and continues the loop. -/
theorem fetchLoop_cont (r : ListResponse) (t : String)
    (rest : List (Except String ListResponse)) (acc : List User)
    (ht : r.nextPageToken = some t) :
    fetchLoop (Except.ok r :: rest) acc = fetchLoop rest (acc ++ r.users.getD []) := by
  cases hu : r.users with
  | some us => simp only [fetchLoop, hu, ht, Option.getD]
  | none => simp only [fetchLoop, hu, ht, Option.getD, List.append_nil]

/-- Unfolding step: a successful response without a `nextPageToken`
appends its items (if any) and ends the loop with no log. -/
theorem fetchLoop_stop (r : ListResponse)
    (rest : List (Except String ListResponse)) (acc : List User)
    (ht : r.nextPageToken = none) :
    fetchLoop (Except.ok r :: rest) acc = (acc ++ r.users.getD [], []) := by
  cases hu : r.users with
  | some us => simp only [fetchLoop, hu, ht, Option.getD]
  | none => simp only [fetchLoop, hu, ht, Option.getD, List.append_nil]

/-- C4: the matched set is a subsequence of the input candidate list —
it contains only users already among the candidates and preserves their
relative order (line 102 is a stable `Array.prototype.filter`). -/
theorem licenseFilter_subsequence (probe : String → String → String → ProbeResult)
    (users : List User) :
    List.Sublist (licenseFilter probe users) users ∧
    ∀ u ∈ licenseFilter probe users, u ∈ users := by
  refine ⟨?_, ?_⟩
  · simp only [licenseFilter]
    exact List.filter_sublist users
  · intro u hu
    simp only [licenseFilter] at hu
    exact (List.filter_sublist users).subset hu

/-- C6: for every positive `daysAgo`, `getCutoffDate` returns the
wall-clock now — the single clock sample `clock 0`; the result is the
same for every clock agreeing at sample 0, hence independent of latency
— minus `daysAgo` calendar days (the `setDate`/`getDate` calendar
arithmetic cancels to plain day subtraction). -/
theorem getCutoffDate_subtracts_days (clock : Nat → Int) (daysAgo : Int)
    (h : 0 < daysAgo) : getCutoffDate clock daysAgo = clock 0 - daysAgo := by
  simp only [getCutoffDate, setDate, getDate]
  ring

/-- Witness for `getCutoffDate_subtracts_days` at `daysAgo = 365`. -/
theorem getCutoffDate_subtracts_days_witness :
    (0 : Int) < 365 ∧ getCutoffDate (fun _ => 20000) 365 = 20000 - 365 :=
  ⟨by norm_num, getCutoffDate_subtracts_days (fun _ => 20000) 365 (by norm_num)⟩

/-- C5 counterexample: `getCutoffDate` does NOT reject non-positive
inputs — at `daysAgo = 0` it returns "now" itself and at `daysAgo = -5`
a timestamp five days in the future; no error is raised and no error
path exists in the source. -/
theorem getCutoffDate_no_rejection :
    getCutoffDate (fun _ => 20000) 0 = 20000 ∧
    getCutoffDate (fun _ => 20000) (-5) = 20005 := by
  constructor <;> decide

/-- C5 amended: `getCutoffDate` performs no validation: for every
`daysAgo ≤ 0` it still returns `now - daysAgo` (a timestamp at or after
the sampled now) instead of raising a configuration error. -/
theorem getCutoffDate_no_validation (clock : Nat → Int) (daysAgo : Int)
    (h : daysAgo ≤ 0) :
    getCutoffDate clock daysAgo = clock 0 - daysAgo ∧
    clock 0 ≤ getCutoffDate clock daysAgo := by
  have heq : getCutoffDate clock daysAgo = clock 0 - daysAgo := by
    simp only [getCutoffDate, setDate, getDate]
    ring
  exact ⟨heq, by omega⟩

/-- Helper: on a well-formed token chain of successful responses the
pagination loop appends every page's items (in order) to the
accumulator and emits no log. -/
theorem fetchLoop_wellFormed (rs : List ListResponse) (acc : List User)
    (h : wellFormedPages rs = true) :
    fetchLoop (rs.map Except.ok) acc =
      (acc ++ (rs.map fun r => r.users.getD []).flatten, []) := by
  induction rs generalizing acc with
  | nil => simp [fetchLoop]
  | cons r rest ih =>
    cases rest with
    | nil =>
      simp only [wellFormedPages] at h
      cases ht : r.nextPageToken with
      | some t => rw [ht] at h; simp at h
      | none =>
        rw [List.map_cons, List.map_nil, fetchLoop_stop r _ acc ht]
        simp
    | cons r2 rest2 =>
      simp only [wellFormedPages, Bool.and_eq_true] at h
      obtain ⟨h1, h2⟩ := h
      cases ht : r.nextPageToken with
      | none => rw [ht] at h1; simp at h1
      | some t =>
        rw [List.map_cons, fetchLoop_cont r t _ acc ht, ih _ h2]
        simp

/-- C3: for every finite chain of successful responses whose last
response carries no next-page token (and all earlier ones do),
`getInactiveUsers` returns the concatenation of all pages' items in
page order with intra-page order preserved, and logs nothing. -/
theorem getInactiveUsers_concat_pages (cutoff : Int) (rs : List ListResponse)
    (h : wellFormedPages rs = true) :
    getInactiveUsers cutoff (rs.map Except.ok) =
      ((rs.map fun r => r.users.getD []).flatten, []) := by
  have hmain := fetchLoop_wellFormed rs [] h
  simpa [getInactiveUsers] using hmain

set_option maxRecDepth 4000 in
/-- Witness for `getInactiveUsers_concat_pages`: three pages of sizes
500, 500 and 37 yield exactly 1037 candidates in page-then-intra-page
order. -/
theorem getInactiveUsers_concat_pages_witness :
    wellFormedPages pagesC3 = true ∧
    (getInactiveUsers 0 (pagesC3.map Except.ok)).1 =
      List.replicate 500 sampleUser ++ List.replicate 500 sampleUser2 ++
        List.replicate 37 sampleUser ∧
    (getInactiveUsers 0 (pagesC3.map Except.ok)).1.length = 1037 := by
  have hwf : wellFormedPages pagesC3 = true := by decide
  have heq := getInactiveUsers_concat_pages 0 pagesC3 hwf
  refine ⟨hwf, ?_, ?_⟩
  · rw [heq]
    simp [pagesC3]
  · rw [heq]
    simp [pagesC3]

/-- Helper: when every response before a thrown page request carries a
token, the loop accumulates those pages, then the exception logs
`'Error listing users: ...'` and breaks — whatever responses would have
followed are never consumed. -/
theorem fetchLoop_error_stops (rs : List ListResponse) (e : String)
    (rest : List (Except String ListResponse)) (acc : List User)
    (h : rs.all (fun r => r.nextPageToken.isSome) = true) :
    fetchLoop (rs.map Except.ok ++ Except.error e :: rest) acc =
      (acc ++ (rs.map fun r => r.users.getD []).flatten,
       [Effect.log ("Error listing users: " ++ e)]) := by
  induction rs generalizing acc with
  | nil => simp [fetchLoop]
  | cons r rest2 ih =>
    simp only [List.all_cons, Bool.and_eq_true] at h
    obtain ⟨h1, h2⟩ := h
    cases ht : r.nextPageToken with
    | none => rw [ht] at h1; simp at h1
    | some t =>
      rw [List.map_cons, List.cons_append, fetchLoop_cont r t _ acc ht, ih _ h2]
      simp

/-- C2: if the request for page k fails, `getInactiveUsers` aborts the
pagination loop immediately and returns exactly the candidates
accumulated from the pages before k, logging the cause; the failed page
is not retried (the result is independent of everything after the
failure) and the function still returns normally — the failure does not
abort the run. -/
theorem getInactiveUsers_stops_on_error (cutoff : Int) (rs : List ListResponse)
    (e : String) (rest : List (Except String ListResponse))
    (h : rs.all (fun r => r.nextPageToken.isSome) = true) :
    getInactiveUsers cutoff (rs.map Except.ok ++ Except.error e :: rest) =
      ((rs.map fun r => r.users.getD []).flatten,
       [Effect.log ("Error listing users: " ++ e)]) := by
  have hmain := fetchLoop_error_stops rs e rest [] h
  simpa [getInactiveUsers] using hmain

/-- Witness for `getInactiveUsers_stops_on_error`: page 1 succeeds
with one user, page 2 throws; the fetcher returns exactly page 1's user
and the error log, ignoring the response that would have followed. -/
theorem getInactiveUsers_stops_on_error_witness :
    ([({ users := some [sampleUser], nextPageToken := some "t1" } : ListResponse)].all
        (fun r => r.nextPageToken.isSome) = true) ∧
    getInactiveUsers 0
        ([({ users := some [sampleUser], nextPageToken := some "t1" } : ListResponse)].map
          Except.ok ++
         Except.error "Quota exceeded" ::
           [Except.ok { users := some [sampleUser2], nextPageToken := none }]) =
      ([sampleUser], [Effect.log "Error listing users: Quota exceeded"]) := by
  have hall : ([({ users := some [sampleUser], nextPageToken := some "t1" } : ListResponse)].all
      (fun r => r.nextPageToken.isSome) = true) := by decide
  refine ⟨hall, ?_⟩
  have hmain := getInactiveUsers_stops_on_error 0
    [{ users := some [sampleUser], nextPageToken := some "t1" }]
    "Quota exceeded"
    [Except.ok { users := some [sampleUser2], nextPageToken := none }] hall
  rw [hmain]
  simp

/-- C10: a successful response that carries a next-page token but no
`users` field (or an empty one) leaves the accumulated candidate list
unchanged and the loop continues with the remaining responses; it never
raises an error or ends the loop early. -/
theorem fetchLoop_absent_items_continues (tok : String)
    (rest : List (Except String ListResponse)) (acc : List User) (cutoff : Int) :
    fetchLoop (Except.ok { users := none, nextPageToken := some tok } :: rest) acc =
      fetchLoop rest acc ∧
    fetchLoop (Except.ok { users := some [], nextPageToken := some tok } :: rest) acc =
      fetchLoop rest acc ∧
    getInactiveUsers cutoff
        (Except.ok { users := none, nextPageToken := some tok } :: rest) =
      getInactiveUsers cutoff rest := by
  refine ⟨?_, ?_, ?_⟩
  · rw [fetchLoop_cont _ tok rest acc rfl]
    simp
  · rw [fetchLoop_cont _ tok rest acc rfl]
    simp
  · simp only [getInactiveUsers]
    rw [fetchLoop_cont _ tok rest [] rfl]
    simp

/-- Witness for `getCutoffDate_no_validation` at `daysAgo = 0`. -/
theorem getCutoffDate_no_validation_witness :
    (0 : Int) ≤ 0 ∧
    (getCutoffDate (fun _ => 20000) 0 = 20000 - 0 ∧
     (fun _ : Nat => (20000 : Int)) 0 ≤ getCutoffDate (fun _ => 20000) 0) :=
  ⟨le_refl 0, getCutoffDate_no_validation (fun _ => 20000) 0 (le_refl 0)⟩

/-- Helper: the license probe emits no effects on ANY outcome — the
`try/catch` in `hasLicense` contains no `Logger.log` call in either
arm. -/
theorem hasLicenseRun_no_effects (probe : String → String → String → ProbeResult)
    (userId productId skuId : String) :
    (hasLicenseRun probe userId productId skuId).2 = [] := by
  rcases hp : probe productId skuId userId with _ | m | m <;>
    simp [hasLicenseRun, hp]

/-- Helper: the license-filtering step as a whole emits no effects. -/
theorem licenseFilterRun_no_effects (probe : String → String → String → ProbeResult)
    (users : List User) : (licenseFilterRun probe users).2 = [] := by
  simp only [licenseFilterRun]
  refine List.flatten_eq_nil_iff.mpr ?_
  intro l hl
  simp only [List.mem_map] at hl
  obtain ⟨u, _, rfl⟩ := hl
  exact hasLicenseRun_no_effects probe u.primaryEmail CONFIG_PRODUCT_ID CONFIG_TARGET_SKU_ID

/-- C1 counterexample: with five candidates, a run whose probe throws a
transport error for candidate 4 is observationally identical to a run
whose probe returns a confirmed 404 for candidate 4 — same matched set
and the same (empty) effect trace — so the inconclusive probe is not
logged or counted distinctly from a confirmed negative in any way. -/
theorem licenseFilter_error_indistinguishable :
    licenseFilterRun probeTransportErr fiveUsers =
      licenseFilterRun probeConfirmedAbsent fiveUsers ∧
    licenseFilterRun probeTransportErr fiveUsers = ([mkUser "U2" "u2@x.com"], []) := by
  constructor <;> decide

/-- C1 amended: a candidate whose entitlement probe fails with a
non-404 error is excluded from the matched set, but the run records
nothing about it: the filter step emits no log entries at all, so the
failed probe is indistinguishable from a confirmed negative. -/
theorem licenseFilter_error_excluded_silently
    (probe : String → String → String → ProbeResult) (users : List User)
    (u : User) (msg : String)
    (h : probe CONFIG_PRODUCT_ID CONFIG_TARGET_SKU_ID u.primaryEmail =
      ProbeResult.error msg) :
    u ∉ licenseFilter probe users ∧ (licenseFilterRun probe users).2 = [] := by
  refine ⟨?_, licenseFilterRun_no_effects probe users⟩
  intro hmem
  simp only [licenseFilter, List.mem_filter] at hmem
  have hp := hmem.2
  simp [hasLicense, hasLicenseRun, h] at hp

/-- Witness for `licenseFilter_error_excluded_silently`: candidate 4 of
the five concrete candidates under the transport-error probe. -/
theorem licenseFilter_error_excluded_silently_witness :
    probeTransportErr CONFIG_PRODUCT_ID CONFIG_TARGET_SKU_ID
        (mkUser "U4" "u4@x.com").primaryEmail = ProbeResult.error "Transport error" ∧
    (mkUser "U4" "u4@x.com" ∉ licenseFilter probeTransportErr fiveUsers ∧
     (licenseFilterRun probeTransportErr fiveUsers).2 = []) :=
  ⟨by decide,
   licenseFilter_error_excluded_silently probeTransportErr fiveUsers
     (mkUser "U4" "u4@x.com") "Transport error" (by decide)⟩

/-- Helper: the pagination loop only ever logs — it performs no
artifact-creating action. -/
theorem fetchLoop_effects_are_logs (l : List (Except String ListResponse))
    (acc : List User) :
    ∀ eff ∈ (fetchLoop l acc).2, eff.isArtifact = false := by
  induction l generalizing acc with
  | nil => simp [fetchLoop]
  | cons x rest ih =>
    cases x with
    | error e => simp [fetchLoop, Effect.isArtifact]
    | ok r =>
      cases ht : r.nextPageToken with
      | some t =>
        rw [fetchLoop_cont r t rest acc ht]
        exact ih _
      | none =>
        rw [fetchLoop_stop r rest acc ht]
        simp

/-- C7: when the matched set is empty the run performs no
artifact-creation action, reports zero matches and logs
`'No matching users found.'`, and ends normally — no export error is
raised. -/
theorem audit_no_matches (env : AuditEnv) (h : targetUsersOf env = []) :
    (auditInactiveEnterpriseUsers env).1.filter Effect.isArtifact = [] ∧
    Effect.log "Found 0 users with Target License and Inactive." ∈
      (auditInactiveEnterpriseUsers env).1 ∧
    Effect.log "No matching users found." ∈ (auditInactiveEnterpriseUsers env).1 ∧
    (auditInactiveEnterpriseUsers env).2 = Except.ok () := by
  have h' : licenseFilter env.probe
      (getInactiveUsers (getCutoffDate env.clock CONFIG_INACTIVITY_DAYS) env.pages).1 =
      [] := h
  have hstr : "Found " ++ toString (0 : Nat) ++
      " users with Target License and Inactive." =
      "Found 0 users with Target License and Inactive." := rfl
  have hrun : auditInactiveEnterpriseUsers env =
      (Effect.log ("Auditing users inactive since: " ++
          toString (getCutoffDate env.clock CONFIG_INACTIVITY_DAYS)) ::
        (getInactiveUsers (getCutoffDate env.clock CONFIG_INACTIVITY_DAYS) env.pages).2 ++
        [Effect.log ("Found " ++
            toString (getInactiveUsers (getCutoffDate env.clock CONFIG_INACTIVITY_DAYS)
              env.pages).1.length ++ " inactive users."),
         Effect.log "Found 0 users with Target License and Inactive.",
         Effect.log "No matching users found."],
       Except.ok ()) := by
    simp only [auditInactiveEnterpriseUsers, h', List.length_nil, hstr]
    norm_num
  have hfetch : ((getInactiveUsers (getCutoffDate env.clock CONFIG_INACTIVITY_DAYS)
      env.pages).2).filter Effect.isArtifact = [] :=
    List.filter_eq_nil_iff.mpr fun a ha => by
      simp [fetchLoop_effects_are_logs env.pages [] a ha]
  refine ⟨?_, ?_, ?_, ?_⟩
  · rw [hrun]
    simp [List.filter_cons, List.filter_append, Effect.isArtifact, hfetch]
  · rw [hrun]; simp
  · rw [hrun]; simp
  · rw [hrun]

/-- Witness for `audit_no_matches`: a run whose single candidate gets a
confirmed 404 from the probe. -/
theorem audit_no_matches_witness :
    targetUsersOf envC7 = [] ∧
    ((auditInactiveEnterpriseUsers envC7).1.filter Effect.isArtifact = [] ∧
     Effect.log "Found 0 users with Target License and Inactive." ∈
       (auditInactiveEnterpriseUsers envC7).1 ∧
     Effect.log "No matching users found." ∈ (auditInactiveEnterpriseUsers envC7).1 ∧
     (auditInactiveEnterpriseUsers envC7).2 = Except.ok ()) :=
  ⟨by decide, audit_no_matches envC7 (by decide)⟩

/-- C8: for every non-empty matched set, export creates the
spreadsheet, appends the fixed header row, writes exactly one data row
per match — the match's full name, email, last-login time, creation
time and suspended flag verbatim, in match order — and logs the
artifact's URL. -/
theorem exportToSheet_writes_rows (url : String) (users : List User)
    (h : users ≠ []) :
    exportToSheet (SinkOutcome.ok url) users =
      ([Effect.createSpreadsheet "Inactive Enterprise Plus Users Audit",
        Effect.appendRow headerRow,
        Effect.setValues (users.map userRow),
        Effect.log ("Report generated: " ++ url)], Except.ok ()) := by
  have hl : 0 < (users.map userRow).length := by
    rw [List.length_map]
    exact List.length_pos.mpr h
  simp [exportToSheet, hl, h]

/-- Witness for `exportToSheet_writes_rows`: two concrete matches. -/
theorem exportToSheet_writes_rows_witness :
    ([sampleUser, sampleUser2] : List User) ≠ [] ∧
    exportToSheet (SinkOutcome.ok "https://sheets.example/abc")
        [sampleUser, sampleUser2] =
      ([Effect.createSpreadsheet "Inactive Enterprise Plus Users Audit",
        Effect.appendRow headerRow,
        Effect.setValues [userRow sampleUser, userRow sampleUser2],
        Effect.log "Report generated: https://sheets.example/abc"], Except.ok ()) := by
  refine ⟨by simp, ?_⟩
  rw [exportToSheet_writes_rows "https://sheets.example/abc" [sampleUser, sampleUser2]
    (by simp)]
  rfl

/-- C9 counterexample: in a concrete run with one matched user where
`SpreadsheetApp.create` throws, the exception propagates uncaught out
of the export step — the whole run ends with the error, so the match
set is not returned to the caller and no record of it beyond the two
pre-export count logs survives. -/
theorem export_failure_aborts_run :
    auditInactiveEnterpriseUsers envC9 =
      ([Effect.log "Auditing users inactive since: 19635",
        Effect.log "Found 1 inactive users.",
        Effect.log "Found 1 users with Target License and Inactive."],
       Except.error "Service invoked too many times") := by
  rfl

/-- C9 amended: when artifact creation fails OR the data write fails,
the export exception propagates uncaught and the run terminates with
that error — it is NOT contained to the export step, and the caller
receives the exception instead of the match set; nothing of the match
set is recorded either: no `setValues` effect and no `appendRow` of any
match's data row ever appears in the trace.  The candidate count and
confirmed-match count, logged before the export step, do survive in
the log. -/
theorem export_failure_counts_still_logged (env : AuditEnv) (msg : String)
    (hs : env.sink = SinkOutcome.createFails msg ∨
      ∃ url, env.sink = SinkOutcome.writeFails url msg)
    (hne : targetUsersOf env ≠ []) :
    (auditInactiveEnterpriseUsers env).2 = Except.error msg ∧
    Effect.log ("Found " ++ toString (inactiveUsersOf env).length ++
        " inactive users.") ∈ (auditInactiveEnterpriseUsers env).1 ∧
    Effect.log ("Found " ++ toString (targetUsersOf env).length ++
        " users with Target License and Inactive.") ∈
      (auditInactiveEnterpriseUsers env).1 ∧
    (∀ rows, Effect.setValues rows ∉ (auditInactiveEnterpriseUsers env).1) ∧
    (∀ u : User, Effect.appendRow (userRow u) ∉ (auditInactiveEnterpriseUsers env).1) := by
  have hlen : 0 < (licenseFilter env.probe
      (getInactiveUsers (getCutoffDate env.clock CONFIG_INACTIVITY_DAYS) env.pages).1).length :=
    List.length_pos.mpr hne
  have hlen2 : 0 < (List.map userRow (licenseFilter env.probe
      (getInactiveUsers (getCutoffDate env.clock CONFIG_INACTIVITY_DAYS)
        env.pages).1)).length := by
    rw [List.length_map]
    exact hlen
  have hhead : ∀ u : User, userRow u ≠ headerRow := by
    intro u heq
    simp [userRow, headerRow] at heq
  rcases hs with hs | ⟨url, hs⟩
  · refine ⟨?_, ?_, ?_, ?_, ?_⟩
    · simp [auditInactiveEnterpriseUsers, hs, hlen, exportToSheet]
    · simp [auditInactiveEnterpriseUsers, inactiveUsersOf, hs, hlen, exportToSheet]
    · simp [auditInactiveEnterpriseUsers, inactiveUsersOf, targetUsersOf, hs, hlen,
        exportToSheet]
    · intro rows hmem
      simp [auditInactiveEnterpriseUsers, hs, hlen, exportToSheet, List.mem_append,
        List.mem_cons] at hmem
      have hart := fetchLoop_effects_are_logs env.pages [] _ hmem
      simp [Effect.isArtifact] at hart
    · intro u hmem
      simp [auditInactiveEnterpriseUsers, hs, hlen, exportToSheet, List.mem_append,
        List.mem_cons] at hmem
      have hart := fetchLoop_effects_are_logs env.pages [] _ hmem
      simp [Effect.isArtifact] at hart
  · refine ⟨?_, ?_, ?_, ?_, ?_⟩
    · simp [auditInactiveEnterpriseUsers, hs, hlen, hlen2, exportToSheet]
    · simp [auditInactiveEnterpriseUsers, inactiveUsersOf, hs, hlen, hlen2, exportToSheet]
    · simp [auditInactiveEnterpriseUsers, inactiveUsersOf, targetUsersOf, hs, hlen, hlen2,
        exportToSheet]
    · intro rows hmem
      simp [auditInactiveEnterpriseUsers, hs, hlen, hlen2, exportToSheet, List.mem_append,
        List.mem_cons] at hmem
      have hart := fetchLoop_effects_are_logs env.pages [] _ hmem
      simp [Effect.isArtifact] at hart
    · intro u hmem
      simp [auditInactiveEnterpriseUsers, hs, hlen, hlen2, exportToSheet, List.mem_append,
        List.mem_cons] at hmem
      rcases hmem with hmem | hmem
      · have hart := fetchLoop_effects_are_logs env.pages [] _ hmem
        simp [Effect.isArtifact] at hart
      · exact hhead u hmem

/-- Witness for `export_failure_counts_still_logged` at the concrete
failing-sink environment (creation failure). -/
theorem export_failure_counts_still_logged_witness :
    (envC9.sink = SinkOutcome.createFails "Service invoked too many times" ∨
      ∃ url, envC9.sink = SinkOutcome.writeFails url "Service invoked too many times") ∧
    targetUsersOf envC9 ≠ [] ∧
    ((auditInactiveEnterpriseUsers envC9).2 =
        Except.error "Service invoked too many times" ∧
     Effect.log ("Found " ++ toString (inactiveUsersOf envC9).length ++
         " inactive users.") ∈ (auditInactiveEnterpriseUsers envC9).1 ∧
     Effect.log ("Found " ++ toString (targetUsersOf envC9).length ++
         " users with Target License and Inactive.") ∈
       (auditInactiveEnterpriseUsers envC9).1 ∧
     (∀ rows, Effect.setValues rows ∉ (auditInactiveEnterpriseUsers envC9).1) ∧
     (∀ u : User, Effect.appendRow (userRow u) ∉ (auditInactiveEnterpriseUsers envC9).1)) :=
  ⟨Or.inl rfl, by decide,
   export_failure_counts_still_logged envC9 "Service invoked too many times"
     (Or.inl rfl) (by decide)⟩
